/-
Verification of the authentication core of the fastapi-backend repository
(`source/backend/app/services/auth.py` together with the authentication
settings in `source/backend/app/core/settings/app.py`).

The embedding is shallow: time is modelled as `Int` seconds, `timedelta`
values as `Int` second counts, JWT tokens as a record of their payload
together with the key/algorithm they were signed with, and the database
behind the `UnitOfWork` as an explicit `Store` value threaded through each
operation.  External collaborators of the core (the password hasher, the
RSA key pairing, the OS random source) are parameters of the definitions.
-/
import Mathlib

set_option autoImplicit false

namespace FastapiBackend

/-! ## Configuration (`app/core/settings/app.py`, class `Settings.Authentication`) -/

/-- Mirror of `Settings.Authentication`: the pydantic settings class with its
    in-code default values.  Key paths are irrelevant to the embedded logic
    (the key text itself is passed around as a string). -/
structure Authentication where
  TOKEN_TYPE : String := "bearer"
  ACCESS_TOKEN_EXPIRE_MINUTES : Int := 5
  REFRESH_TOKEN_EXPIRE_DAYS : Int := 30
  ALGORITHM : String := "RS256"

/-! ## JWT model (`encode_jwt_token` / `decode_jwt_token`, backed by PyJWT) -/

/-- Subject of a JWT: the Python signature is `Union[str, Any]`; the code
    passes either a string or a user id (int). -/
inductive JwtSub where
  | str (s : String)
  | int (n : Int)
  deriving DecidableEq, Repr

/-- Claims carried by an access token: `sub`, `iat`, `exp` (seconds). -/
structure JwtPayload where
  sub : JwtSub
  iat : Int
  exp : Int
  deriving DecidableEq, Repr

/-- A signed token: its payload plus the private key and algorithm used by
    `jwt.encode`.  The signature is modelled by remembering the signing key. -/
structure JwtToken where
  payload : JwtPayload
  signedWith : String
  alg : String
  deriving DecidableEq, Repr

/-- Errors raised by `jwt.decode`: signature failure and expired `exp`. -/
inductive JwtError where
  | invalidSignature
  | expiredSignature
  deriving DecidableEq, Repr

/-- Embedding of `AuthenticationService.encode_jwt_token`.

    `expires` models the keyword argument `expires: timedelta | None`.  The
    source tests it with Python truthiness (`if expires:`), under which both
    `None` and `timedelta(0)` are falsy, so a zero duration falls back to the
    configured default `ACCESS_TOKEN_EXPIRE_MINUTES` (converted to seconds).
    `now` is the value of `datetime.utcnow()` in seconds. -/
def encode_jwt_token (cfg : Authentication) (subject : JwtSub)
    (private_key : String) (algorithm : String)
    (expires : Option Int) (now : Int) : JwtToken :=
  let expire : Int :=
    match expires with
    | some e => if e = 0 then now + 60 * cfg.ACCESS_TOKEN_EXPIRE_MINUTES else now + e
    | none => now + 60 * cfg.ACCESS_TOKEN_EXPIRE_MINUTES
  { payload := { sub := subject, iat := now, exp := expire },
    signedWith := private_key,
    alg := algorithm }

/-- Embedding of `AuthenticationService.decode_jwt_token`, i.e. of
    `jwt.decode(token, public_key, algorithms=[algorithm])`.

    `pairs priv pub = true` models "the signature produced with private key
    `priv` verifies under public key `pub`" — the RSA pairing relation is an
    external parameter.  PyJWT verifies the signature first and only then the
    `exp` claim; a token is expired when `exp < now` (strictly), matching
    PyJWT where `exp` equal to the current second is still accepted. -/
def decode_jwt_token (pairs : String → String → Bool) (token : JwtToken)
    (public_key : String) (algorithm : String) (now : Int) :
    Except JwtError JwtPayload :=
  if pairs token.signedWith public_key = true ∧ token.alg = algorithm then
    if token.payload.exp < now then
      .error .expiredSignature
    else
      .ok token.payload
  else
    .error .invalidSignature

/-! ## Refresh-token generation (`_generate_refresh_token`, `secrets.token_urlsafe`) -/

/-- URL-safe base64 alphabet used by `base64.urlsafe_b64encode`. -/
def b64Alphabet : List Char :=
  "ABCDEFGHIJKLMNOPQRSTUVWXYZabcdefghijklmnopqrstuvwxyz0123456789-_".toList

/-- Character of the URL-safe base64 alphabet at index `n % 64`. -/
def b64Char (n : Nat) : Char :=
  b64Alphabet.get ⟨n % 64, Nat.lt_of_lt_of_le (Nat.mod_lt _ (by decide)) (by decide)⟩

/-- Unpadded URL-safe base64 of a byte sequence, as produced by
    `secrets.token_urlsafe` (which strips the `=` padding). -/
def base64urlChars : List (Fin 256) → List Char
  | [] => []
  | [a] => [b64Char (a.val / 4), b64Char (a.val % 4 * 16)]
  | [a, b] =>
      [b64Char (a.val / 4), b64Char (a.val % 4 * 16 + b.val / 16),
       b64Char (b.val % 16 * 4)]
  | a :: b :: c :: rest =>
      b64Char (a.val / 4) :: b64Char (a.val % 4 * 16 + b.val / 16) ::
      b64Char (b.val % 16 * 4 + c.val / 64) :: b64Char (c.val % 64) ::
      base64urlChars rest

/-- Model of `secrets.token_urlsafe(nbytes)`: URL-safe base64 of `nbytes`
    bytes drawn from the OS random source `urandom`. -/
def token_urlsafe (urandom : Nat → List (Fin 256)) (nbytes : Nat) : String :=
  String.mk (base64urlChars (urandom nbytes))

/-- Default value of the `lenght` parameter of
    `AuthenticationService._generate_refresh_token` (spelled as in the
    source): the number of random bytes drawn. -/
def lenght_default : Nat := 64

/-- Embedding of `AuthenticationService._generate_refresh_token`. -/
def generate_refresh_token (urandom : Nat → List (Fin 256))
    (lenght : Nat) : String :=
  token_urlsafe urandom lenght

/-- A string is URL-safe when every character belongs to the unpadded
    URL-safe base64 alphabet. -/
def isUrlSafe (s : String) : Bool :=
  s.toList.all (fun c => b64Alphabet.contains c)

/-! ## Data model (`User`, `RefreshSession`, `Token`) -/

/-- The user entity: immutable `id`, `email`, `hashed_password` (read-only
    from this core, owned by the user subsystem). -/
structure User where
  id : Int
  email : String
  hashed_password : String
  deriving DecidableEq, Repr

/-- A persisted refresh session.  `created_at` is set by the store at
    creation time; `expires_in` is a duration in seconds. -/
structure RefreshSession where
  refresh_token : String
  user_id : Int
  created_at : Int
  expires_in : Int
  deriving DecidableEq, Repr

/-- The `Token` response schema: an access/refresh token pair plus the
    configured token type. -/
structure Token where
  access_token : JwtToken
  refresh_token : String
  token_type : String
  deriving DecidableEq, Repr

/-- Business errors of the orchestrator: `InvalidCredentialsException`,
    `InvalidTokenException`, `TokenExpiredException`. -/
inductive AuthError where
  | invalidCredentials
  | invalidToken
  | tokenExpired
  deriving DecidableEq, Repr

/-- The state behind the `UnitOfWork`: the persisted refresh sessions and
    the user directory.

    Modelled from the spec: the `UnitOfWork`, the session repository and the
    user repository live outside the provided sources; the spec describes
    them as a transactional store with `create` / `findByToken` /
    `deleteByToken` / `findUserById`, whose effects (including the lazy
    delete of an expired session) are committed when a flow finishes. -/
structure Store where
  sessions : List RefreshSession
  users : List User
  deriving DecidableEq, Repr

/-- Lookup of a refresh session by its token
    (`uow.refresh_session.get(spec=RefreshTokenSpecification(...))`). -/
def findByToken (st : Store) (rt : String) : Option RefreshSession :=
  st.sessions.find? (fun s => s.refresh_token == rt)

/-- Deletion of the session(s) matching a refresh token
    (`uow.refresh_session.delete(spec=...)`). -/
def deleteByToken (st : Store) (rt : String) : Store :=
  { st with sessions := st.sessions.filter (fun s => !(s.refresh_token == rt)) }

/-- Lookup of a user by id (`uow.user.get(spec=UserIDSpecification(...))`). -/
def findUserById (st : Store) (uid : Int) : Option User :=
  st.users.find? (fun u => u.id == uid)

/-- Lookup of a user by email (`UserService.get_by_email`).

    Modelled from the spec: `UserService` is outside the provided sources;
    the spec gives the user directory as `findByEmail(email) -> User|none`. -/
def get_by_email (st : Store) (email : String) : Option User :=
  st.users.find? (fun u => u.email == email)

/-! ## Orchestrator flows (`AuthenticationService`) -/

/-- Embedding of `AuthenticationService.create_token`.

    `fresh` is the refresh token produced by `_generate_refresh_token()`;
    the store appends a new session for it with
    `expires_in = timedelta(days=REFRESH_TOKEN_EXPIRE_DAYS).total_seconds()`
    and `created_at = now`, and the `Token` pair is returned. -/
def create_token (cfg : Authentication) (private_key : String)
    (st : Store) (user_id : Int) (fresh : String) (now : Int) :
    Token × Store :=
  let access_token := encode_jwt_token cfg (.int user_id) private_key cfg.ALGORITHM none now
  let sess : RefreshSession :=
    { refresh_token := fresh,
      user_id := user_id,
      created_at := now,
      expires_in := 86400 * cfg.REFRESH_TOKEN_EXPIRE_DAYS }
  ({ access_token := access_token,
     refresh_token := fresh,
     token_type := cfg.TOKEN_TYPE },
   { st with sessions := st.sessions ++ [sess] })

/-- Embedding of `AuthenticationService.refresh_token`.

    Returns the business outcome together with the resulting store (the
    expired branch deletes the stale session before raising
    `TokenExpiredException`).  The expiry test is the source's
    `datetime.utcnow() > created_at + timedelta(seconds=expires_in)`. -/
def refresh_token (cfg : Authentication) (private_key : String)
    (st : Store) (rt : String) (now : Int) :
    Except AuthError Token × Store :=
  match findByToken st rt with
  | none => (.error .invalidToken, st)
  | some refresh_session =>
    if refresh_session.created_at + refresh_session.expires_in < now then
      (.error .tokenExpired, deleteByToken st rt)
    else
      match findUserById st refresh_session.user_id with
      | none => (.error .invalidToken, st)
      | some user =>
        (.ok { access_token := encode_jwt_token cfg (.int user.id) private_key cfg.ALGORITHM none now,
               refresh_token := rt,
               token_type := cfg.TOKEN_TYPE },
         st)

/-- Embedding of `AuthenticationService.authenticate_user`.

    `verify` models `verify_password(user_password=…, hashed_password=…)`
    from `app/utils/security.py` (external collaborator): first argument the
    plaintext password, second the stored hash. -/
def authenticate_user (verify : String → String → Bool) (st : Store)
    (email : String) (password : String) : Except AuthError User :=
  match get_by_email st email with
  | none => .error .invalidCredentials
  | some user =>
    if verify password user.hashed_password then
      .ok user
    else
      .error .invalidCredentials

/-- Embedding of `AuthenticationService.logout`.

    Note that the source deletes the session only on the expired branch; the
    non-expired branch merely commits (no delete is issued there). -/
def logout (st : Store) (rt : String) (now : Int) :
    Except AuthError Unit × Store :=
  match findByToken st rt with
  | none => (.error .invalidToken, st)
  | some refresh_session =>
    if refresh_session.created_at + refresh_session.expires_in < now then
      (.error .tokenExpired, deleteByToken st rt)
    else
      (.ok (), st)

/-! ## Helper lemmas -/

/-- Every character produced by `b64Char` belongs to the alphabet. -/
theorem b64Char_mem (n : Nat) : b64Char n ∈ b64Alphabet :=
  List.get_mem _ _ _

/-- Every character of an unpadded URL-safe base64 encoding belongs to the
    alphabet. -/
theorem base64urlChars_subset :
    ∀ (bs : List (Fin 256)) (c : Char), c ∈ base64urlChars bs → c ∈ b64Alphabet
  | [], _, hc => by simp [base64urlChars] at hc
  | [a], c, hc => by
      simp [base64urlChars] at hc
      rcases hc with h | h <;> (subst h; exact b64Char_mem _)
  | [a, b], c, hc => by
      simp [base64urlChars] at hc
      rcases hc with h | h | h <;> (subst h; exact b64Char_mem _)
  | a :: b :: c0 :: rest, c, hc => by
      simp only [base64urlChars, List.mem_cons] at hc
      rcases hc with h | h | h | h | h
      · subst h; exact b64Char_mem _
      · subst h; exact b64Char_mem _
      · subst h; exact b64Char_mem _
      · subst h; exact b64Char_mem _
      · exact base64urlChars_subset rest c h

/-- The output of the refresh-token generator is URL-safe. -/
theorem isUrlSafe_generate (urandom : Nat → List (Fin 256)) (lenght : Nat) :
    isUrlSafe (generate_refresh_token urandom lenght) = true := by
  simp only [isUrlSafe, generate_refresh_token, token_urlsafe, List.all_eq_true]
  intro c hc
  have hmem : c ∈ base64urlChars (urandom lenght) := by
    simpa [String.toList] using hc
  simpa using base64urlChars_subset _ c hmem

/-- After deleting a token from the store, looking it up returns none. -/
theorem findByToken_deleteByToken (st : Store) (rt : String) :
    findByToken (deleteByToken st rt) rt = none := by
  simp only [findByToken, deleteByToken, List.find?_eq_none, List.mem_filter]
  intro s hs
  simpa using hs.2

/-! ## Claims -/

/-- C10: calling `encode_jwt_token` with an explicit `expires` equal to the
    zero duration is treated as absent by the Python truthiness test: the
    token's `exp` is `now` plus the configured default access-token lifetime
    (the same as passing no `expires` at all), not `now`; only a nonzero
    `expires` overrides the configured default. -/
theorem encode_zero_expires_uses_default (cfg : Authentication)
    (subject : JwtSub) (pk alg : String) (now : Int) :
    (encode_jwt_token cfg subject pk alg (some 0) now).payload.exp
        = now + 60 * cfg.ACCESS_TOKEN_EXPIRE_MINUTES
  ∧ (encode_jwt_token cfg subject pk alg (some 0) now)
        = encode_jwt_token cfg subject pk alg none now
  ∧ (∀ e : Int, e ≠ 0 →
        (encode_jwt_token cfg subject pk alg (some e) now).payload.exp = now + e) := by
  refine ⟨by simp [encode_jwt_token], by simp [encode_jwt_token], ?_⟩
  intro e he
  simp [encode_jwt_token, he]

/-- C10 witness: evaluated with the default configuration at time 0, a zero
    `expires` yields `exp = 300` seconds (5 minutes) and `expires` of 120
    seconds yields `exp = 120`. -/
theorem encode_zero_expires_uses_default_witness :
    (encode_jwt_token {} (.str "u") "pk" "RS256" (some 0) 0).payload.exp = 0 + 60 * 5
  ∧ (encode_jwt_token {} (.str "u") "pk" "RS256" (some 0) 0)
        = encode_jwt_token {} (.str "u") "pk" "RS256" none 0
  ∧ (encode_jwt_token {} (.str "u") "pk" "RS256" (some 120) 0).payload.exp = 0 + 120 :=
  ⟨(encode_zero_expires_uses_default {} (.str "u") "pk" "RS256" 0).1,
   (encode_zero_expires_uses_default {} (.str "u") "pk" "RS256" 0).2.1,
   (encode_zero_expires_uses_default {} (.str "u") "pk" "RS256" 0).2.2 120 (by decide)⟩

/-- C8: `create_token` appends exactly one new session to the store, keyed
    by the freshly generated refresh token, with the given `user_id` and
    `expires_in` equal to the configured refresh-token lifetime in days
    converted to seconds; it returns a `Token` carrying that refresh token,
    an access token encoded for the user id and the configured token type;
    the users table and every pre-existing session are untouched. -/
theorem create_token_spec (cfg : Authentication) (pk : String) (st : Store)
    (uid : Int) (fresh : String) (now : Int) :
    (create_token cfg pk st uid fresh now).2.sessions
        = st.sessions ++
          [{ refresh_token := fresh, user_id := uid, created_at := now,
             expires_in := 86400 * cfg.REFRESH_TOKEN_EXPIRE_DAYS }]
  ∧ (create_token cfg pk st uid fresh now).2.users = st.users
  ∧ (create_token cfg pk st uid fresh now).1.refresh_token = fresh
  ∧ (create_token cfg pk st uid fresh now).1.access_token
        = encode_jwt_token cfg (.int uid) pk cfg.ALGORITHM none now
  ∧ (create_token cfg pk st uid fresh now).1.token_type = cfg.TOKEN_TYPE :=
  ⟨rfl, rfl, rfl, rfl, rfl⟩

/-- C5: for a matching key pair, decoding an encoded token at encode time
    succeeds and yields claims with `sub` equal to the subject and
    `exp - iat` equal to the explicit (positive) ttl when given, otherwise
    to the configured default access-token lifetime in seconds. -/
theorem codec_round_trip (pairs : String → String → Bool)
    (cfg : Authentication) (s priv pub alg : String) (ttl : Option Int)
    (now : Int)
    (hpair : pairs priv pub = true)
    (hcfg : 0 ≤ cfg.ACCESS_TOKEN_EXPIRE_MINUTES)
    (httl : ∀ e, ttl = some e → 0 < e) :
    decode_jwt_token pairs (encode_jwt_token cfg (.str s) priv alg ttl now)
        pub alg now
      = .ok (encode_jwt_token cfg (.str s) priv alg ttl now).payload
  ∧ (encode_jwt_token cfg (.str s) priv alg ttl now).payload.sub = .str s
  ∧ (encode_jwt_token cfg (.str s) priv alg ttl now).payload.exp
      - (encode_jwt_token cfg (.str s) priv alg ttl now).payload.iat
      = (match ttl with
         | some e => e
         | none => 60 * cfg.ACCESS_TOKEN_EXPIRE_MINUTES) := by
  cases ttl with
  | none =>
      refine ⟨?_, rfl, by simp [encode_jwt_token]⟩
      simp only [decode_jwt_token, encode_jwt_token, hpair]
      rw [if_pos (by simp), if_neg (by simp; omega)]
  | some e =>
      have he : 0 < e := httl e rfl
      refine ⟨?_, rfl, ?_⟩
      · simp only [decode_jwt_token, encode_jwt_token, hpair]
        rw [if_pos (by simp), if_neg (by simp [show e ≠ 0 by omega]; omega)]
      · simp [encode_jwt_token, show e ≠ 0 by omega]

/-- C5 witness: with a concrete key-pair relation, the default
    configuration and an explicit ttl of 120 seconds, the round trip holds
    at time 1000. -/
theorem codec_round_trip_witness :
    decode_jwt_token (fun p q => p == q)
        (encode_jwt_token {} (.str "alice") "key" "RS256" (some 120) 1000)
        "key" "RS256" 1000
      = .ok (encode_jwt_token {} (.str "alice") "key" "RS256" (some 120) 1000).payload
  ∧ (encode_jwt_token {} (.str "alice") "key" "RS256" (some 120) 1000).payload.sub
      = .str "alice"
  ∧ (encode_jwt_token {} (.str "alice") "key" "RS256" (some 120) 1000).payload.exp
      - (encode_jwt_token {} (.str "alice") "key" "RS256" (some 120) 1000).payload.iat
      = (match (some 120 : Option Int) with
         | some e => e
         | none => 60 * ({} : Authentication).ACCESS_TOKEN_EXPIRE_MINUTES) :=
  codec_round_trip (fun p q => p == q) {} "alice" "key" "key" "RS256"
    (some 120) 1000 (by decide) (by decide)
    (by intro e h; injection h with h1; omega)

/-- Decoding a token encoded with a truthy (nonzero) explicit ttl reduces to
    the expiry test on `now + e`. -/
theorem decode_encode_truthy (pairs : String → String → Bool)
    (cfg : Authentication) (s priv pub alg : String) (e now tDec : Int)
    (hp : pairs priv pub = true) (he : e ≠ 0) :
    decode_jwt_token pairs (encode_jwt_token cfg (.str s) priv alg (some e) now)
        pub alg tDec
      = if now + e < tDec then .error .expiredSignature
        else .ok { sub := .str s, iat := now, exp := now + e } := by
  simp [decode_jwt_token, encode_jwt_token, hp, he]

/-- C6: `decode_jwt_token` never returns claims when the signature does not
    verify under the configured public key and algorithm (it fails with the
    invalid-signature error), nor when `exp` has passed (it fails with the
    expired error); a token encoded with ttl of -1 second always fails to
    decode at any later instant, and one encoded with a one-hour ttl and
    decoded immediately never fails on expiry. -/
theorem decode_checks (pairs : String → String → Bool) (pub alg : String)
    (now : Int) (tokBad tokExp : JwtToken) (cfg : Authentication)
    (s priv : String) (tEnc : Int)
    (hbad : ¬(pairs tokBad.signedWith pub = true ∧ tokBad.alg = alg))
    (hsig : pairs tokExp.signedWith pub = true) (halg : tokExp.alg = alg)
    (hpast : tokExp.payload.exp < now)
    (hp : pairs priv pub = true) (htEnc : tEnc ≤ now) :
    decode_jwt_token pairs tokBad pub alg now = .error .invalidSignature
  ∧ decode_jwt_token pairs tokExp pub alg now = .error .expiredSignature
  ∧ decode_jwt_token pairs
      (encode_jwt_token cfg (.str s) priv alg (some (-1)) tEnc) pub alg now
      = .error .expiredSignature
  ∧ decode_jwt_token pairs
      (encode_jwt_token cfg (.str s) priv alg (some 3600) now) pub alg now
      ≠ .error .expiredSignature := by
  refine ⟨?_, ?_, ?_, ?_⟩
  · simp only [decode_jwt_token]
    rw [if_neg hbad]
  · simp only [decode_jwt_token]
    rw [if_pos ⟨hsig, halg⟩, if_pos hpast]
  · rw [decode_encode_truthy pairs cfg s priv pub alg (-1) tEnc now hp (by omega),
        if_pos (by omega)]
  · rw [decode_encode_truthy pairs cfg s priv pub alg 3600 now now hp (by omega),
        if_neg (by omega)]
    simp

/-- C6 witness: with a concrete key-pair relation, a token signed with a
    foreign key fails the signature check, an expired token fails the expiry
    check, a ttl of -1 second fails immediately and a one-hour ttl does not. -/
theorem decode_checks_witness :
    decode_jwt_token (fun p q => p == q)
        { payload := { sub := .str "x", iat := 0, exp := 9999 },
          signedWith := "other", alg := "RS256" } "key" "RS256" 50
      = .error .invalidSignature
  ∧ decode_jwt_token (fun p q => p == q)
        { payload := { sub := .str "x", iat := 0, exp := 10 },
          signedWith := "key", alg := "RS256" } "key" "RS256" 50
      = .error .expiredSignature
  ∧ decode_jwt_token (fun p q => p == q)
      (encode_jwt_token {} (.str "x") "key" "RS256" (some (-1)) 40) "key" "RS256" 50
      = .error .expiredSignature
  ∧ decode_jwt_token (fun p q => p == q)
      (encode_jwt_token {} (.str "x") "key" "RS256" (some 3600) 50) "key" "RS256" 50
      ≠ .error .expiredSignature :=
  decode_checks (fun p q => p == q) "key" "RS256" 50
    { payload := { sub := .str "x", iat := 0, exp := 9999 },
      signedWith := "other", alg := "RS256" }
    { payload := { sub := .str "x", iat := 0, exp := 10 },
      signedWith := "key", alg := "RS256" }
    {} "x" "key" 40
    (by decide) (by decide) (by decide) (by decide) (by decide) (by decide)

/-- C1: for a stored session whose `created_at + expires_in` lies strictly in
    the past, both `refresh_token` and `logout` raise `TokenExpired` and
    delete the stale record, so a subsequent lookup of that token returns
    none. -/
theorem lazy_expiry_deletion (cfg : Authentication) (pk : String) (st : Store)
    (rt : String) (sess : RefreshSession) (now : Int)
    (hfind : findByToken st rt = some sess)
    (hexp : sess.created_at + sess.expires_in < now) :
    refresh_token cfg pk st rt now = (.error .tokenExpired, deleteByToken st rt)
  ∧ logout st rt now = (.error .tokenExpired, deleteByToken st rt)
  ∧ findByToken (refresh_token cfg pk st rt now).2 rt = none
  ∧ findByToken (logout st rt now).2 rt = none := by
  have h1 : refresh_token cfg pk st rt now
      = (.error .tokenExpired, deleteByToken st rt) := by
    simp only [refresh_token, hfind]
    rw [if_pos hexp]
  have h2 : logout st rt now = (.error .tokenExpired, deleteByToken st rt) := by
    simp only [logout, hfind]
    rw [if_pos hexp]
  refine ⟨h1, h2, ?_, ?_⟩
  · rw [h1]; exact findByToken_deleteByToken st rt
  · rw [h2]; exact findByToken_deleteByToken st rt

/-- C4: for a session found in the store, `refresh_token` and `logout` raise
    `TokenExpired` exactly when `now` is strictly greater than
    `created_at + expires_in`, and at the exact boundary instant the session
    is still treated as valid (no `TokenExpired`). -/
theorem session_validity_boundary (cfg : Authentication) (pk : String)
    (st : Store) (rt : String) (sess : RefreshSession) (now : Int)
    (hfind : findByToken st rt = some sess) :
    ((refresh_token cfg pk st rt now).1 = .error .tokenExpired
        ↔ sess.created_at + sess.expires_in < now)
  ∧ ((logout st rt now).1 = .error .tokenExpired
        ↔ sess.created_at + sess.expires_in < now)
  ∧ (refresh_token cfg pk st rt (sess.created_at + sess.expires_in)).1
        ≠ .error .tokenExpired
  ∧ (logout st rt (sess.created_at + sess.expires_in)).1
        ≠ .error .tokenExpired := by
  have hre : ∀ t : Int, ¬ sess.created_at + sess.expires_in < t →
      (refresh_token cfg pk st rt t).1 ≠ .error .tokenExpired := by
    intro t ht
    simp only [refresh_token, hfind]
    rw [if_neg ht]
    rcases hfu : findUserById st sess.user_id with _ | u <;> simp [hfu]
  have hlo : ∀ t : Int, ¬ sess.created_at + sess.expires_in < t →
      (logout st rt t).1 ≠ .error .tokenExpired := by
    intro t ht
    simp only [logout, hfind]
    rw [if_neg ht]
    simp
  have hepos : ∀ t : Int, sess.created_at + sess.expires_in < t →
      (refresh_token cfg pk st rt t).1 = .error .tokenExpired
    ∧ (logout st rt t).1 = .error .tokenExpired := by
    intro t ht
    constructor
    · simp only [refresh_token, hfind]
      rw [if_pos ht]
    · simp only [logout, hfind]
      rw [if_pos ht]
  refine ⟨⟨fun h => ?_, fun h => (hepos now h).1⟩,
          ⟨fun h => ?_, fun h => (hepos now h).2⟩,
          hre _ (by omega), hlo _ (by omega)⟩
  · by_contra hn
    exact hre now hn h
  · by_contra hn
    exact hlo now hn h

/-- C2: for a valid refresh token whose user exists, `refresh_token` returns
    the presented refresh token together with an access token freshly minted
    at the call instant and the configured token type, and leaves the store
    (hence the session record) completely unchanged; a second call on the
    resulting store therefore returns the identical refresh token again. -/
theorem refresh_idempotent_read (cfg : Authentication) (pk : String)
    (st : Store) (rt : String) (sess : RefreshSession) (user : User)
    (now1 now2 : Int)
    (hfind : findByToken st rt = some sess)
    (h1 : ¬ sess.created_at + sess.expires_in < now1)
    (h2 : ¬ sess.created_at + sess.expires_in < now2)
    (huser : findUserById st sess.user_id = some user) :
    refresh_token cfg pk st rt now1 =
      (.ok { access_token := encode_jwt_token cfg (.int user.id) pk cfg.ALGORITHM none now1,
             refresh_token := rt, token_type := cfg.TOKEN_TYPE }, st)
  ∧ refresh_token cfg pk (refresh_token cfg pk st rt now1).2 rt now2 =
      (.ok { access_token := encode_jwt_token cfg (.int user.id) pk cfg.ALGORITHM none now2,
             refresh_token := rt, token_type := cfg.TOKEN_TYPE }, st) := by
  have key : ∀ t : Int, ¬ sess.created_at + sess.expires_in < t →
      refresh_token cfg pk st rt t =
        (.ok { access_token := encode_jwt_token cfg (.int user.id) pk cfg.ALGORITHM none t,
               refresh_token := rt, token_type := cfg.TOKEN_TYPE }, st) := by
    intro t ht
    simp only [refresh_token, hfind]
    rw [if_neg ht]
    simp only [huser]
  have e1 := key now1 h1
  refine ⟨e1, ?_⟩
  rw [e1]
  exact key now2 h2

/-- C3: `authenticate_user` returns the matching user exactly when the email
    resolves and the password verifies against the stored hash; an unknown
    email and a known email with a wrong password raise the very same
    `InvalidCredentials` error, so the two failure causes are
    indistinguishable to the caller. -/
theorem authenticate_spec (verify : String → String → Bool) (st : Store)
    (email pw badEmail badPw : String) (u : User)
    (hnone : get_by_email st badEmail = none)
    (hsome : get_by_email st email = some u)
    (hbadpw : verify badPw u.hashed_password = false) :
    (authenticate_user verify st email pw = .ok u ↔
        get_by_email st email = some u ∧ verify pw u.hashed_password = true)
  ∧ authenticate_user verify st badEmail pw = .error .invalidCredentials
  ∧ authenticate_user verify st email badPw = .error .invalidCredentials
  ∧ authenticate_user verify st email badPw
      = authenticate_user verify st badEmail pw := by
  refine ⟨?_, ?_, ?_, ?_⟩
  · by_cases hv : verify pw u.hashed_password = true <;>
      simp [authenticate_user, hsome, hv]
  · simp [authenticate_user, hnone]
  · simp [authenticate_user, hsome, hbadpw]
  · simp [authenticate_user, hsome, hnone, hbadpw]

/-- C7: `refresh_token` raises `InvalidToken` when the token has no stored
    session and when the session's owning user no longer exists, `logout`
    raises it when the token has no stored session, and in each such case
    the store is returned unchanged; in the complementary branches (valid
    session with user, expired session) `InvalidToken` is never raised. -/
theorem invalid_token_spec (cfg : Authentication) (pk : String) (st : Store)
    (rtMissing rtOrphan rtGood rtExp : String)
    (sessO sessG sessE : RefreshSession) (userG : User) (now : Int)
    (hmiss : findByToken st rtMissing = none)
    (horph : findByToken st rtOrphan = some sessO)
    (hOvalid : ¬ sessO.created_at + sessO.expires_in < now)
    (hOnouser : findUserById st sessO.user_id = none)
    (hgood : findByToken st rtGood = some sessG)
    (hGvalid : ¬ sessG.created_at + sessG.expires_in < now)
    (hGuser : findUserById st sessG.user_id = some userG)
    (hexp : findByToken st rtExp = some sessE)
    (hEexp : sessE.created_at + sessE.expires_in < now) :
    refresh_token cfg pk st rtMissing now = (.error .invalidToken, st)
  ∧ logout st rtMissing now = (.error .invalidToken, st)
  ∧ refresh_token cfg pk st rtOrphan now = (.error .invalidToken, st)
  ∧ (refresh_token cfg pk st rtGood now).1 ≠ .error .invalidToken
  ∧ (refresh_token cfg pk st rtExp now).1 ≠ .error .invalidToken
  ∧ (logout st rtGood now).1 ≠ .error .invalidToken
  ∧ (logout st rtExp now).1 ≠ .error .invalidToken := by
  refine ⟨?_, ?_, ?_, ?_, ?_, ?_, ?_⟩
  · simp only [refresh_token, hmiss]
  · simp only [logout, hmiss]
  · simp only [refresh_token, horph]
    rw [if_neg hOvalid]
    simp only [hOnouser]
  · simp only [refresh_token, hgood]
    rw [if_neg hGvalid]
    simp [hGuser]
  · simp only [refresh_token, hexp]
    rw [if_pos hEexp]
    simp
  · simp only [logout, hgood]
    rw [if_neg hGvalid]
    simp
  · simp only [logout, hexp]
    rw [if_pos hEexp]
    simp

/-- C9 counterexample: the byte-length parameter of
    `_generate_refresh_token` defaults to 64 in the source, not to 48 as
    the claim states. -/
theorem lenght_default_ne_48 : ¬ (lenght_default = 48) := by decide

/-- C9 (amended): the generator's byte-length parameter defaults to 64; a
    token generated with the default length is URL-safe and carries
    8 × 64 = 512 ≥ 256 bits of underlying randomness. -/
theorem generate_refresh_token_spec (urandom : Nat → List (Fin 256))
    (h : (urandom lenght_default).length = lenght_default) :
    lenght_default = 64
  ∧ isUrlSafe (generate_refresh_token urandom lenght_default) = true
  ∧ 256 ≤ 8 * (urandom lenght_default).length := by
  refine ⟨rfl, isUrlSafe_generate urandom lenght_default, ?_⟩
  rw [h]
  decide

/-! ## Concrete fixtures for the witnesses -/

/-- A known user. -/
def user0 : User :=
  { id := 1, email := "known@example.com", hashed_password := "hash1" }

/-- A session for `user0`, created at 1000 with a 30-day window. -/
def sess0 : RefreshSession :=
  { refresh_token := "tok1", user_id := 1, created_at := 1000,
    expires_in := 2592000 }

/-- A session whose owning user does not exist. -/
def sessOrphan : RefreshSession :=
  { refresh_token := "tok2", user_id := 2, created_at := 1000,
    expires_in := 2592000 }

/-- A session that expired at time 10. -/
def sessExpired : RefreshSession :=
  { refresh_token := "tok3", user_id := 1, created_at := 0, expires_in := 10 }

/-- A store holding only `sess0` and `user0`. -/
def st0 : Store := { sessions := [sess0], users := [user0] }

/-- A store holding a valid, an orphaned and an expired session. -/
def st1 : Store :=
  { sessions := [sess0, sessOrphan, sessExpired], users := [user0] }

/-- Concrete password verifier used by the C3 witness. -/
def verify0 : String → String → Bool :=
  fun pw h => (pw == "correct-pw") && (h == "hash1")

/-- C1 witness: the expired check evaluated on a concrete store well past
    the session window. -/
theorem lazy_expiry_deletion_witness :
    refresh_token {} "pk" st0 "tok1" 3000000
        = (.error .tokenExpired, deleteByToken st0 "tok1")
  ∧ logout st0 "tok1" 3000000 = (.error .tokenExpired, deleteByToken st0 "tok1")
  ∧ findByToken (refresh_token {} "pk" st0 "tok1" 3000000).2 "tok1" = none
  ∧ findByToken (logout st0 "tok1" 3000000).2 "tok1" = none :=
  lazy_expiry_deletion {} "pk" st0 "tok1" sess0 3000000 (by rfl) (by decide)

/-- C4 witness: the validity predicate evaluated on a concrete store, past
    the window and at the exact boundary. -/
theorem session_validity_boundary_witness :
    ((refresh_token {} "pk" st0 "tok1" 3000000).1 = .error .tokenExpired
        ↔ sess0.created_at + sess0.expires_in < 3000000)
  ∧ ((logout st0 "tok1" 3000000).1 = .error .tokenExpired
        ↔ sess0.created_at + sess0.expires_in < 3000000)
  ∧ (refresh_token {} "pk" st0 "tok1"
        (sess0.created_at + sess0.expires_in)).1 ≠ .error .tokenExpired
  ∧ (logout st0 "tok1" (sess0.created_at + sess0.expires_in)).1
        ≠ .error .tokenExpired :=
  session_validity_boundary {} "pk" st0 "tok1" sess0 3000000 (by rfl)

/-- C2 witness: two successive refreshes at times 2000 and 3000 on a
    concrete valid session. -/
theorem refresh_idempotent_read_witness :
    refresh_token {} "pk" st0 "tok1" 2000 =
      (.ok { access_token :=
               encode_jwt_token {} (.int user0.id) "pk"
                 ({} : Authentication).ALGORITHM none 2000,
             refresh_token := "tok1",
             token_type := ({} : Authentication).TOKEN_TYPE }, st0)
  ∧ refresh_token {} "pk" (refresh_token {} "pk" st0 "tok1" 2000).2 "tok1" 3000 =
      (.ok { access_token :=
               encode_jwt_token {} (.int user0.id) "pk"
                 ({} : Authentication).ALGORITHM none 3000,
             refresh_token := "tok1",
             token_type := ({} : Authentication).TOKEN_TYPE }, st0) :=
  refresh_idempotent_read {} "pk" st0 "tok1" sess0 user0 2000 3000
    (by rfl) (by decide) (by decide) (by rfl)

/-- C3 witness: the three credential-check scenarios evaluated on a
    concrete store and verifier. -/
theorem authenticate_spec_witness :
    (authenticate_user verify0 st0 "known@example.com" "correct-pw" = .ok user0 ↔
        get_by_email st0 "known@example.com" = some user0
        ∧ verify0 "correct-pw" user0.hashed_password = true)
  ∧ authenticate_user verify0 st0 "unknown@example.com" "correct-pw"
        = .error .invalidCredentials
  ∧ authenticate_user verify0 st0 "known@example.com" "wrong-pw"
        = .error .invalidCredentials
  ∧ authenticate_user verify0 st0 "known@example.com" "wrong-pw"
        = authenticate_user verify0 st0 "unknown@example.com" "correct-pw" :=
  authenticate_spec verify0 st0 "known@example.com" "correct-pw"
    "unknown@example.com" "wrong-pw" user0 (by rfl) (by rfl) (by rfl)

/-- C7 witness: the four branches of the token lookup evaluated on a
    concrete store holding a valid, an orphaned and an expired session. -/
theorem invalid_token_spec_witness :
    refresh_token {} "pk" st1 "nope" 2000 = (.error .invalidToken, st1)
  ∧ logout st1 "nope" 2000 = (.error .invalidToken, st1)
  ∧ refresh_token {} "pk" st1 "tok2" 2000 = (.error .invalidToken, st1)
  ∧ (refresh_token {} "pk" st1 "tok1" 2000).1 ≠ .error .invalidToken
  ∧ (refresh_token {} "pk" st1 "tok3" 2000).1 ≠ .error .invalidToken
  ∧ (logout st1 "tok1" 2000).1 ≠ .error .invalidToken
  ∧ (logout st1 "tok3" 2000).1 ≠ .error .invalidToken :=
  invalid_token_spec {} "pk" st1 "nope" "tok2" "tok1" "tok3"
    sessOrphan sess0 sessExpired user0 2000
    (by rfl) (by rfl) (by decide) (by rfl) (by rfl) (by decide) (by rfl)
    (by rfl) (by decide)

/-- C9 witness: the amended generator contract evaluated on a concrete
    64-byte random draw. -/
theorem generate_refresh_token_spec_witness :
    lenght_default = 64
  ∧ isUrlSafe (generate_refresh_token
        (fun n => List.replicate n (0 : Fin 256)) lenght_default) = true
  ∧ 256 ≤ 8 * (List.replicate lenght_default (0 : Fin 256)).length :=
  generate_refresh_token_spec (fun n => List.replicate n 0) (by simp)

end FastapiBackend
